import Mathlib

/-!
Verification of the `FluentValue` core of `fluent-rs` (`src/fluent/src/types.rs`):
the value model (`String` / `Number` variants), the fallible numeric constructor
`as_number`, the `format` renderer, and the locale-aware selector matcher `matches`.

External collaborators (the `fluent_locale` negotiation, the `intl_pluralrules`
classifier, and the `MessageContext` from the sibling `context` module) are
modelled from the specification's collaborator contracts; each such definition
carries a doc comment saying so.
-/

/-- The CLDR plural categories used by `intl_pluralrules::PluralCategory`. -/
inductive PluralCategory
  | ZERO
  | ONE
  | TWO
  | FEW
  | MANY
  | OTHER
deriving DecidableEq, Repr

/-- Modelled from the spec: the `MessageContext` collaborator (its source lives in
`src/fluent/src/context.rs`, outside the provided sources). The spec's contract:
"exposes an ordered sequence of requested locale identifiers; no other fields are
read by this core." -/
structure MessageContext where
  locales : List String

/-- Modelled from the spec: the plural-rules classifier object produced by
`IntlPluralRules::create`; it "exposes `select(numeric text) -> plural category
or failure`". A `none` result models the `Err` case of `select`. -/
structure IntlPluralRules where
  select : String → Option PluralCategory

/-- The host string type, under a name the `FluentValue.String` constructor
cannot shadow. -/
abbrev Str : Type := String

/-- Value types which can be formatted to a String (`enum FluentValue` in
`types.rs`): `String(String)` and `Number(String)` — the `Number` variant stores
the textual representation of the number. -/
inductive FluentValue
  | String : Str → FluentValue
  | Number : Str → FluentValue
deriving DecidableEq, Repr

/-- Modelled from the Rust standard library's documented grammar for
`f64::from_str`, which `FluentValue::as_number` uses purely to validate
numeric-ness: `Sign? ( 'inf' | 'infinity' | 'nan' | Count '.'? Count? Exp? )`
with `Exp ::= [eE] Sign? Count`, digits required somewhere in the mantissa,
and the special words case-insensitive. -/
def isCount (cs : List Char) : Bool :=
  !cs.isEmpty && cs.all Char.isDigit

/-- Mantissa-and-exponent recognizer for `f64::from_str` after the optional
leading sign has been removed (see `isCount`). -/
def f64AfterSign (cs : List Char) : Bool :=
  let low := cs.map Char.toLower
  if low = "inf".data || low = "infinity".data || low = "nan".data then true
  else
    let mant := cs.takeWhile fun c => c != 'e' && c != 'E'
    let rest := cs.dropWhile fun c => c != 'e' && c != 'E'
    let ints := mant.takeWhile Char.isDigit
    let mantOk :=
      match mant.dropWhile Char.isDigit with
      | [] => !ints.isEmpty
      | '.' :: fracs => (!ints.isEmpty || !fracs.isEmpty) && fracs.all Char.isDigit
      | _ => false
    let expOk :=
      match rest with
      | [] => true
      | _ :: '+' :: ds => isCount ds
      | _ :: '-' :: ds => isCount ds
      | _ :: ds => isCount ds
    mantOk && expOk

/-- Whether `f64::from_str` succeeds on `s` (see `f64AfterSign`). -/
def f64FromStrOk (s : String) : Bool :=
  match s.data with
  | [] => false
  | '+' :: cs => f64AfterSign cs
  | '-' :: cs => f64AfterSign cs
  | cs => f64AfterSign cs

/-- The opaque payload of `std::num::ParseFloatError`: the spec says it carries
"no recovery information beyond 'not a valid number'". -/
structure ParseFloatError where

/-- `FluentValue::as_number` (`types.rs` lines 36–38):
`f64::from_str(&v.to_string()).map(|_| FluentValue::Number(v.to_string()))` —
validates the text as an `f64` and, on success, stores the original text. The
generic `S: ToString` receiver is embedded as the text it converts to. -/
def FluentValue.as_number (v : Str) : Except ParseFloatError FluentValue :=
  if f64FromStrOk v then Except.ok (FluentValue.Number v) else Except.error ⟨⟩

/-- `FluentValue::format` (`types.rs` lines 40–45): both variants clone out their
contained string; the context argument is unused (`_ctx`). -/
def FluentValue.format : FluentValue → MessageContext → Str
  | FluentValue.String s, _ => s
  | FluentValue.Number n, _ => n

/-- The `match a.as_str()` block inside `FluentValue::matches` mapping a selector
key to a `PluralCategory`; `none` models the `_ => return false` arm. -/
def pluralCategoryFromKey : String → Option PluralCategory
  | "zero" => some PluralCategory.ZERO
  | "one" => some PluralCategory.ONE
  | "two" => some PluralCategory.TWO
  | "few" => some PluralCategory.FEW
  | "many" => some PluralCategory.MANY
  | "other" => some PluralCategory.OTHER
  | _ => none

/-- Modelled from the spec: the fixed set of locales supported by the
plural-rules provider for cardinal rules
(`IntlPluralRules::get_locales(PluralRuleType::CARDINAL)`), abridged to the one
locale the spec's scenarios exercise; it contains `"en"`. -/
def supportedCardinalLocales : List String := ["en"]

/-- The language subtag of a locale identifier (its "parent" for negotiation). -/
def langSubtag (r : String) : String := (r.splitOn "-").headD r

/-- The locale (if any) that a single requested locale `r` resolves to against
the `available` set under lookup negotiation: `r` itself on an exact match, its
parent on a parent match, nothing otherwise. -/
def lookupCandidate (available : List String) (r : String) : Option String :=
  if available.contains r then some r
  else if available.contains (langSubtag r) then some (langSubtag r)
  else none

/-- Modelled from the spec: `fluent_locale::negotiate_languages` under
`NegotiationStrategy::Lookup` with a fallback — "first requested locale that has
an exact or parent match in the supported set, else fallback", yielding exactly
one resolved locale. -/
def negotiate_languages (requested available : List String) (fallback : String) :
    List String :=
  match requested.findSome? (lookupCandidate available) with
  | some l => [l]
  | none => [fallback]

/-- Modelled from the spec: extraction of the CLDR plural operands `i` (integer
value of the absolute numeric text) and `v` (number of visible fraction digits,
trailing zeros kept) that `intl_pluralrules` derives from a numeric string;
`none` models its parse failure on malformed text. -/
def parseOperands (s : String) : Option (Nat × Nat) :=
  let cs := match s.data with
    | '-' :: rest => rest
    | cs => cs
  let ints := cs.takeWhile Char.isDigit
  let rest := cs.dropWhile Char.isDigit
  if ints.isEmpty then none
  else
    match rest with
    | [] => some (ints.foldl (fun n c => 10 * n + (c.toNat - 48)) 0, 0)
    | '.' :: fracs =>
      if !fracs.isEmpty && fracs.all Char.isDigit then
        some (ints.foldl (fun n c => 10 * n + (c.toNat - 48)) 0, fracs.length)
      else none
    | _ => none

/-- Modelled from the spec: the plural-rules provider's classifier for English
cardinal rules — CLDR assigns category `one` exactly when the integer value is 1
and there are no visible fraction digits, and `other` otherwise; unclassifiable
text yields an error (`none`). -/
def enCardinalSelect (s : String) : Option PluralCategory :=
  match parseOperands s with
  | none => none
  | some (i, v) =>
    some (if i = 1 ∧ v = 0 then PluralCategory.ONE else PluralCategory.OTHER)

/-- Modelled from the spec: `IntlPluralRules::create(locale, CARDINAL)` —
"create(locale identifier, rule_type: Cardinal) -> classifier or failure";
creation succeeds exactly for the supported cardinal locales. -/
def IntlPluralRules.create (locale : String) : Option IntlPluralRules :=
  if locale ∈ supportedCardinalLocales then some ⟨enCardinalSelect⟩ else none

/-- `FluentValue::matches` (`types.rs` lines 47–77), generic in its two
collaborators (`negotiate_languages` and `IntlPluralRules::create`). The first
component is the boolean result, with `none` marking the two panicking control
points (`locales[0]` on an empty negotiation result, and `.unwrap()` on a failed
classifier creation); the second component is the stream of lines written to
standard output (the `println!("Number: {:#?}", b)` on the `(String, Number)`
arm). -/
def matchesFull (neg : List String → List String → String → List String)
    (create : String → Option IntlPluralRules) :
    FluentValue → MessageContext → FluentValue → Option Bool × List String
  | FluentValue.String a, _, FluentValue.String b => (some (decide (a = b)), [])
  | FluentValue.Number a, _, FluentValue.Number b => (some (decide (a = b)), [])
  | FluentValue.String a, ctx, FluentValue.Number b =>
    let out := ["Number: \"" ++ b ++ "\""]
    match pluralCategoryFromKey a with
    | none => (some false, out)
    | some cat =>
      let locales := neg ctx.locales supportedCardinalLocales "en"
      match locales.head? with
      | none => (none, out)
      | some l =>
        match create l with
        | none => (none, out)
        | some pr => (some (decide (pr.select b = some cat)), out)
  | FluentValue.Number _, _, FluentValue.String _ => (some false, [])

/-- The boolean result of `FluentValue::matches` with the concrete collaborators;
`none` marks a panic. -/
def FluentValue.matches (self : FluentValue) (ctx : MessageContext)
    (other : FluentValue) : Option Bool :=
  (matchesFull negotiate_languages IntlPluralRules.create self ctx other).1

/-- The standard-output lines produced by one call to `FluentValue::matches`. -/
def FluentValue.matchesOut (self : FluentValue) (ctx : MessageContext)
    (other : FluentValue) : List Str :=
  (matchesFull negotiate_languages IntlPluralRules.create self ctx other).2

/-- The single locale resolved by step 2 of the selector-matching algorithm. -/
def negotiatedLocale (ctx : MessageContext) : String :=
  (negotiate_languages ctx.locales supportedCardinalLocales "en").headD "en"

/-- The category the negotiated locale's classifier assigns to numeric text `n`
(`none` when classifier creation or classification fails). -/
def classifierSelect (locale : String) (n : String) : Option PluralCategory :=
  match IntlPluralRules.create locale with
  | some pr => pr.select n
  | none => none

/-- A negotiation function that breaks the collaborator contract by returning an
empty locale list. -/
def emptyNegotiation : List String → List String → String → List String :=
  fun _ _ _ => []

/-- A classifier factory that breaks the collaborator contract by failing on
every locale. -/
def noClassifier : String → Option IntlPluralRules := fun _ => none

/-- Any successful lookup against the supported cardinal locales resolves to
`"en"`. -/
theorem lookupCandidate_supported_en (r x : String)
    (h : lookupCandidate supportedCardinalLocales r = some x) : x = "en" := by
  unfold lookupCandidate supportedCardinalLocales at h
  split at h
  · next hc =>
      cases h
      simpa using hc
  · split at h
    · next hc =>
        cases h
        simpa using hc
    · exact Option.noConfusion h

/-- Negotiation against the supported cardinal locales with fallback `"en"`
always resolves to the single locale `"en"`, whatever the requested list. -/
theorem negotiate_languages_en (req : List String) :
    negotiate_languages req supportedCardinalLocales "en" = ["en"] := by
  unfold negotiate_languages
  cases hf : req.findSome? (lookupCandidate supportedCardinalLocales) with
  | none => rfl
  | some x =>
    obtain ⟨r, -, hr⟩ := List.exists_of_findSome?_eq_some hf
    rw [lookupCandidate_supported_en r x hr]

/-- Classifier creation for `"en"` succeeds and yields the English cardinal
classifier. -/
theorem create_en : IntlPluralRules.create "en" = some ⟨enCardinalSelect⟩ := rfl

/-- On a valid selector key, `matches` reduces to comparing the English cardinal
classification of the numeric text with the key's category. -/
theorem matches_key_classify (k n : String) (cat : PluralCategory)
    (ctx : MessageContext) (hk : pluralCategoryFromKey k = some cat) :
    (FluentValue.String k).matches ctx (FluentValue.Number n)
      = some (decide (enCardinalSelect n = some cat)) := by
  simp only [FluentValue.matches, matchesFull, hk, negotiate_languages_en, List.head?,
    create_en]

/-- The `(String, Number)` arm prints the numeric operand in `{:#?}` form,
whatever the key and context. -/
theorem matchesOut_eq (k n : String) (ctx : MessageContext) :
    (FluentValue.String k).matchesOut ctx (FluentValue.Number n)
      = ["Number: \"" ++ n ++ "\""] := by
  simp only [FluentValue.matchesOut, matchesFull]
  cases pluralCategoryFromKey k <;> simp [negotiate_languages_en, create_en]

/-- The locale negotiated by `matches` is `"en"` for every context under the
modelled supported set. -/
theorem negotiatedLocale_en (ctx : MessageContext) : negotiatedLocale ctx = "en" := by
  simp [negotiatedLocale, negotiate_languages_en]

/-- The negotiated locale's classifier is the English cardinal classifier. -/
theorem classifierSelect_en (n : String) :
    classifierSelect "en" n = enCardinalSelect n := rfl

/-- C1: For every valid selector key and every Numeric value, `matches` on the
Text key against the number returns true exactly when the cardinal plural-rules
classifier of the locale negotiated from the context's requested-locale list
classifies the number's stored text into the category named by the key; with
requested locales `["en"]`, key `"one"` matches `"1"`, key `"other"` matches
`"5"`, and key `"one"` does not match `"5"`. -/
theorem matches_selector_classifies_by_negotiated_locale :
    (∀ (k : String) (cat : PluralCategory) (ctx : MessageContext) (n : String),
        pluralCategoryFromKey k = some cat →
        ((FluentValue.String k).matches ctx (FluentValue.Number n) = some true ↔
          classifierSelect (negotiatedLocale ctx) n = some cat))
    ∧ (FluentValue.String "one").matches ⟨["en"]⟩ (FluentValue.Number "1") = some true
    ∧ (FluentValue.String "other").matches ⟨["en"]⟩ (FluentValue.Number "5") = some true
    ∧ (FluentValue.String "one").matches ⟨["en"]⟩ (FluentValue.Number "5") = some false := by
  refine ⟨?_, by decide, by decide, by decide⟩
  intro k cat ctx n hk
  rw [matches_key_classify k n cat ctx hk, negotiatedLocale_en, classifierSelect_en]
  simp

/-- C1 witness: the general equivalence instantiated at key `"one"`, requested
locales `["en"]` and numeric text `"1"`. -/
theorem matches_selector_witness :
    pluralCategoryFromKey "one" = some PluralCategory.ONE ∧
      ((FluentValue.String "one").matches ⟨["en"]⟩ (FluentValue.Number "1") = some true ↔
        classifierSelect (negotiatedLocale ⟨["en"]⟩) "1" = some PluralCategory.ONE) :=
  ⟨rfl, matches_selector_classifies_by_negotiated_locale.1 "one" PluralCategory.ONE
    ⟨["en"]⟩ "1" rfl⟩

/-- C2: For every Text value that is not one of the six selector keys, matching
it against any Numeric value in any context returns false — and no error: the
call stays on the non-panicking path (`some false`, never `none`). -/
theorem matches_invalid_key_is_false (k : String) (ctx : MessageContext) (n : String)
    (hk : pluralCategoryFromKey k = none) :
    (FluentValue.String k).matches ctx (FluentValue.Number n) = some false := by
  simp only [FluentValue.matches, matchesFull, hk]

/-- C2 witness: the invalid key `"foo"` against numeric `"5"`. -/
theorem matches_invalid_key_witness :
    pluralCategoryFromKey "foo" = none ∧
      (FluentValue.String "foo").matches ⟨["en"]⟩ (FluentValue.Number "5") = some false :=
  ⟨rfl, matches_invalid_key_is_false "foo" ⟨["en"]⟩ "5" rfl⟩

/-- C3: Same-kind matching is exact textual equality: two Text values match iff
their strings are equal, two Numeric values match iff their stored texts are
identical, so Numeric `"1"` does not match Numeric `"1.0"`. -/
theorem matches_same_kind_textual_equality (ctx : MessageContext) (a b : String) :
    ((FluentValue.String a).matches ctx (FluentValue.String b) = some (decide (a = b)))
    ∧ ((FluentValue.Number a).matches ctx (FluentValue.Number b) = some (decide (a = b)))
    ∧ (FluentValue.Number "1").matches ctx (FluentValue.Number "1.0") = some false := by
  refine ⟨rfl, rfl, ?_⟩
  simp [FluentValue.matches, matchesFull]

/-- C4: A Numeric receiver never matches a Text argument — this direction of
the relation is constantly false. -/
theorem matches_numeric_vs_text_always_false (ctx : MessageContext) (a b : String) :
    (FluentValue.Number a).matches ctx (FluentValue.String b) = some false := rfl

/-- C5: `as_number` succeeds exactly when the text parses as a 64-bit float; on
success it stores the original input text unchanged, so formatting the result
returns the input exactly; on failure it returns the parse error. -/
theorem as_number_parse_roundtrip (s : String) (ctx : MessageContext) :
    (f64FromStrOk s = true →
      FluentValue.as_number s = Except.ok (FluentValue.Number s)
      ∧ (FluentValue.Number s).format ctx = s)
    ∧ (f64FromStrOk s = false → FluentValue.as_number s = Except.error ⟨⟩) := by
  constructor
  · intro h
    exact ⟨by simp [FluentValue.as_number, h], rfl⟩
  · intro h
    simp [FluentValue.as_number, h]

/-- C5 witness: `"1.0"` round-trips through `as_number` and `format` verbatim,
while `"abc"` is rejected. -/
theorem as_number_witness :
    f64FromStrOk "1.0" = true ∧ f64FromStrOk "abc" = false ∧
      (FluentValue.as_number "1.0" = Except.ok (FluentValue.Number "1.0")
        ∧ (FluentValue.Number "1.0").format ⟨["en"]⟩ = "1.0")
      ∧ FluentValue.as_number "abc" = Except.error ⟨⟩ :=
  ⟨rfl, rfl, (as_number_parse_roundtrip "1.0" ⟨["en"]⟩).1 rfl,
    (as_number_parse_roundtrip "abc" ⟨["en"]⟩).2 rfl⟩

/-- C6: `format` is total and verbatim: a Text value renders to its wrapped
string and a Numeric value to its stored text, for every context. -/
theorem format_total_verbatim (ctx : MessageContext) (s : String) :
    (FluentValue.String s).format ctx = s ∧ (FluentValue.Number s).format ctx = s :=
  ⟨rfl, rfl⟩

/-- C7: With an empty requested-locale list, negotiation falls back to `"en"`
and, on every valid selector key, `matches` agrees with the `["en"]` context. -/
theorem matches_empty_locales_falls_back_en (k n : String) (cat : PluralCategory)
    (hk : pluralCategoryFromKey k = some cat) :
    negotiate_languages [] supportedCardinalLocales "en" = ["en"]
    ∧ (FluentValue.String k).matches ⟨[]⟩ (FluentValue.Number n)
        = (FluentValue.String k).matches ⟨["en"]⟩ (FluentValue.Number n) := by
  refine ⟨rfl, ?_⟩
  rw [matches_key_classify k n cat _ hk, matches_key_classify k n cat _ hk]

/-- C7 witness: key `"one"` against numeric `"1"`. -/
theorem matches_empty_locales_witness :
    pluralCategoryFromKey "one" = some PluralCategory.ONE ∧
      (negotiate_languages [] supportedCardinalLocales "en" = ["en"]
        ∧ (FluentValue.String "one").matches ⟨[]⟩ (FluentValue.Number "1")
            = (FluentValue.String "one").matches ⟨["en"]⟩ (FluentValue.Number "1")) :=
  ⟨rfl, matches_empty_locales_falls_back_en "one" "1" PluralCategory.ONE rfl⟩

/-- C8: Under the collaborator contract (negotiation yields a non-empty list of
supported locales, and classifier creation succeeds on every supported locale)
the two panicking control points in `matches` are unreachable; if negotiation
returns empty or creation fails for the resolved locale, the call is fatal
(`none`), never a silent `some false`. -/
theorem matches_fatal_on_contract_violation_only :
    (∀ (neg : List String → List String → String → List String)
        (create : String → Option IntlPluralRules)
        (self other : FluentValue) (ctx : MessageContext),
        neg ctx.locales supportedCardinalLocales "en" ≠ [] →
        (∀ l ∈ neg ctx.locales supportedCardinalLocales "en",
            l ∈ supportedCardinalLocales) →
        (∀ l ∈ supportedCardinalLocales, (create l).isSome = true) →
        ((matchesFull neg create self ctx other).1).isSome = true)
    ∧ (∀ (neg : List String → List String → String → List String)
        (create : String → Option IntlPluralRules)
        (k n : String) (cat : PluralCategory) (ctx : MessageContext),
        pluralCategoryFromKey k = some cat →
        neg ctx.locales supportedCardinalLocales "en" = [] →
        (matchesFull neg create (FluentValue.String k) ctx (FluentValue.Number n)).1
          = none)
    ∧ (∀ (neg : List String → List String → String → List String)
        (create : String → Option IntlPluralRules)
        (k n l : String) (cat : PluralCategory) (ctx : MessageContext),
        pluralCategoryFromKey k = some cat →
        (neg ctx.locales supportedCardinalLocales "en").head? = some l →
        create l = none →
        (matchesFull neg create (FluentValue.String k) ctx (FluentValue.Number n)).1
          = none) := by
  refine ⟨?_, ?_, ?_⟩
  · intro neg create self other ctx hne hsub hcr
    cases self with
    | Number a => cases other <;> simp [matchesFull]
    | String a =>
      cases other with
      | String b => simp [matchesFull]
      | Number b =>
        simp only [matchesFull]
        cases hk : pluralCategoryFromKey a with
        | none => simp
        | some cat =>
          cases hl : neg ctx.locales supportedCardinalLocales "en" with
          | nil => exact absurd hl hne
          | cons x xs =>
            have hx : x ∈ supportedCardinalLocales := hsub x (hl ▸ List.mem_cons_self x xs)
            have := hcr x hx
            cases hc : create x with
            | none => rw [hc] at this; simp at this
            | some pr => simp [hl, hc]
  · intro neg create k n cat ctx hk hempty
    simp [matchesFull, hk, hempty]
  · intro neg create k n l cat ctx hk hhead hcreate
    simp [matchesFull, hk, hhead, hcreate]

/-- C8 witness: the healthy collaborators never panic on `"one"` vs `"1"`, while
an empty negotiation or a failing classifier factory make the same call fatal. -/
theorem matches_fatal_witness :
    ((matchesFull negotiate_languages IntlPluralRules.create (FluentValue.String "one")
        ⟨["en"]⟩ (FluentValue.Number "1")).1).isSome = true
    ∧ (matchesFull emptyNegotiation IntlPluralRules.create (FluentValue.String "one")
        ⟨["en"]⟩ (FluentValue.Number "1")).1 = none
    ∧ (matchesFull negotiate_languages noClassifier (FluentValue.String "one")
        ⟨["en"]⟩ (FluentValue.Number "1")).1 = none :=
  ⟨matches_fatal_on_contract_violation_only.1 negotiate_languages IntlPluralRules.create
      (FluentValue.String "one") (FluentValue.Number "1") ⟨["en"]⟩ (by decide) (by decide)
      (by decide),
    matches_fatal_on_contract_violation_only.2.1 emptyNegotiation IntlPluralRules.create
      "one" "1" PluralCategory.ONE ⟨["en"]⟩ rfl rfl,
    matches_fatal_on_contract_violation_only.2.2 negotiate_languages noClassifier
      "one" "1" "en" PluralCategory.ONE ⟨["en"]⟩ rfl (by decide) rfl⟩

/-- C9 counterexample: matching a Text selector against a Numeric value writes a
diagnostic line to standard output (the `println!` in the source), so matching
is not free of I/O as claimed. -/
theorem matches_prints_on_text_numeric :
    (FluentValue.String "one").matchesOut ⟨["en"]⟩ (FluentValue.Number "1") ≠ [] := by
  decide

/-- C9 amended: matching writes to standard output exactly on the Text-receiver
versus Numeric-argument pairing (one diagnostic line, even for invalid keys) and
performs no I/O on any other pairing; the operations remain plain computations
over their immutable operands. -/
theorem matchesOut_empty_iff_not_text_numeric (self other : FluentValue)
    (ctx : MessageContext) :
    self.matchesOut ctx other ≠ [] ↔
      ∃ a b, self = FluentValue.String a ∧ other = FluentValue.Number b := by
  cases self with
  | String a =>
    cases other with
    | String b => simp [FluentValue.matchesOut, matchesFull]
    | Number b =>
      refine iff_of_true ?_ ⟨a, b, rfl, rfl⟩
      rw [matchesOut_eq]
      simp
  | Number a => cases other <;> simp [FluentValue.matchesOut, matchesFull]

/-- C10: On a valid selector key, when the classifier cannot classify the
Numeric value's stored text (its `select` errors, possible because the `Number`
variant is publicly constructible with unvalidated text), `matches` returns
false instead of raising or propagating the failure. -/
theorem matches_unclassifiable_numeric_false (k n : String) (cat : PluralCategory)
    (ctx : MessageContext) (hk : pluralCategoryFromKey k = some cat)
    (hn : enCardinalSelect n = none) :
    (FluentValue.String k).matches ctx (FluentValue.Number n) = some false := by
  rw [matches_key_classify k n cat ctx hk, hn]
  simp

/-- C10 witness: key `"one"` against the unclassifiable numeric text `"abc"`. -/
theorem matches_unclassifiable_witness :
    pluralCategoryFromKey "one" = some PluralCategory.ONE ∧ enCardinalSelect "abc" = none ∧
      (FluentValue.String "one").matches ⟨["en"]⟩ (FluentValue.Number "abc") = some false :=
  ⟨rfl, rfl, matches_unclassifiable_numeric_false "one" "abc" PluralCategory.ONE
    ⟨["en"]⟩ rfl rfl⟩
